import Mathlib

set_option maxRecDepth 8000

/-!
Shallow embedding of the terminal-ime-proxy input engine.

Strings are modelled as lists of Unicode code points (`List Nat`), the way
JavaScript's spread `[...str]` iterates a string.  `utf16Length` models the
JavaScript `String.prototype.length` (UTF-16 code units) and `byteLength`
models `Buffer.byteLength(str, 'utf8')`.  The `CompositionBuffer` state
machine, the special-key router, the supervisor handlers and the
command-line timeout parsing are translated from
`src/src/composition-buffer.ts`; the classifier predicates are translated
from the IME detector module.
-/

/-- Number of bytes in the UTF-8 encoding of one code point. -/
def utf8Len (c : Nat) : Nat :=
  if c < 0x80 then 1 else if c < 0x800 then 2 else if c < 0x10000 then 3 else 4

/-- Number of UTF-16 code units used for one code point
(JavaScript string length counts these). -/
def utf16Len (c : Nat) : Nat := if c < 0x10000 then 1 else 2

/-- Model of `Buffer.byteLength(str, 'utf8')`. -/
def byteLength (s : List Nat) : Nat := (s.map utf8Len).sum

/-- Model of the JavaScript `str.length` (UTF-16 code units). -/
def utf16Length (s : List Nat) : Nat := (s.map utf16Len).sum

/-- Model of `str.charCodeAt(0)`: the first UTF-16 code unit (for an astral
first code point this is its high surrogate); 0 for the empty string, which
the embedding never consults because the empty string is handled first. -/
def charCodeAt0 (s : List Nat) : Nat :=
  match s with
  | [] => 0
  | c :: _ => if c < 0x10000 then c else 0xD800 + (c - 0x10000) / 0x400

/-- Model of `/[\u(lo)-\u(hi)]/.test(s)`: some code point falls in the
inclusive range. -/
def testRange (lo hi : Nat) (s : List Nat) : Bool :=
  s.any (fun c => decide (lo ≤ c) && decide (c ≤ hi))

/-- `isVietnamese` from the IME detector: precomposed ranges or combining
diacritics. -/
def isVietnamese (s : List Nat) : Bool :=
  testRange 0xC0 0xFF s || testRange 0x102 0x103 s || testRange 0x110 0x111 s ||
  testRange 0x128 0x129 s || testRange 0x168 0x169 s || testRange 0x1A0 0x1B0 s ||
  testRange 0x1EA0 0x1EF9 s || testRange 0x300 0x36F s

/-- `isChinese` from the IME detector (main, extension A, compatibility,
radicals; the extension-B range is declared but not consulted there). -/
def isChinese (s : List Nat) : Bool :=
  testRange 0x4E00 0x9FFF s || testRange 0x3400 0x4DBF s ||
  testRange 0xF900 0xFAFF s || testRange 0x2F00 0x2FDF s

/-- `isJapanese` from the IME detector. -/
def isJapanese (s : List Nat) : Bool :=
  testRange 0x3040 0x309F s || testRange 0x30A0 0x30FF s ||
  testRange 0x31F0 0x31FF s || testRange 0xFF65 0xFF9F s

/-- `isKorean` from the IME detector. -/
def isKorean (s : List Nat) : Bool :=
  testRange 0xAC00 0xD7AF s || testRange 0x1100 0x11FF s ||
  testRange 0xA960 0xA97F s || testRange 0x3130 0x318F s

/-- `isCJK` from the IME detector. -/
def isCJK (s : List Nat) : Bool := isChinese s || isJapanese s || isKorean s

/-- `isMultiByte`: UTF-8 byte length strictly exceeds the JavaScript string
length (UTF-16 code units). -/
def isMultiByte (s : List Nat) : Bool := decide (utf16Length s < byteLength s)

/-- `hasCombiningMarks`: combining diacritical marks U+0300 to U+036F. -/
def hasCombiningMarks (s : List Nat) : Bool := testRange 0x300 0x36F s

/-- `isIMEInput` from the IME detector: the guard rejects the empty string
and a single ASCII character, then multi-byte content, combining marks and
the per-script ranges classify the chunk as IME. -/
def isIMEInput (input : List Nat) : Bool :=
  if input = [] ∨ (utf16Length input = 1 ∧ charCodeAt0 input < 128) then false
  else if isMultiByte input then true
  else if hasCombiningMarks input then true
  else if isVietnamese input || isCJK input then true
  else if testRange 0xE00 0xE7F input || testRange 0x600 0x6FF input ||
          testRange 0x900 0x97F input then true
  else false

lemma utf8Len_pos (c : Nat) : 1 ≤ utf8Len c := by
  unfold utf8Len; split_ifs <;> omega

lemma utf16Len_le_utf8Len (c : Nat) : utf16Len c ≤ utf8Len c := by
  unfold utf8Len utf16Len; split_ifs <;> omega

lemma one_lt_utf8Len_iff (c : Nat) : 1 < utf8Len c ↔ 0x80 ≤ c := by
  unfold utf8Len; split_ifs <;> omega

lemma utf16Len_lt_utf8Len_iff (c : Nat) : utf16Len c < utf8Len c ↔ 0x80 ≤ c := by
  unfold utf8Len utf16Len; split_ifs <;> omega

lemma utf16Len_eq_one_iff (c : Nat) : utf16Len c = 1 ↔ c < 0x10000 := by
  unfold utf16Len; split_ifs <;> omega

lemma sum_map_le_sum_map (f g : Nat → Nat) (hfg : ∀ c, f c ≤ g c) (s : List Nat) :
    (s.map f).sum ≤ (s.map g).sum := by
  induction s with
  | nil => simp
  | cons a t ih =>
    simp only [List.map_cons, List.sum_cons]
    have := hfg a
    omega

lemma sum_map_lt_sum_map_iff (f g : Nat → Nat) (hfg : ∀ c, f c ≤ g c) (s : List Nat) :
    (s.map f).sum < (s.map g).sum ↔ ∃ c ∈ s, f c < g c := by
  induction s with
  | nil => simp
  | cons a t ih =>
    simp only [List.map_cons, List.sum_cons, List.mem_cons]
    constructor
    · intro h
      by_cases hc : f a < g a
      · exact ⟨a, Or.inl rfl, hc⟩
      · have ht : (t.map f).sum < (t.map g).sum := by
          have := hfg a; omega
        obtain ⟨c, hc1, hc2⟩ := ih.mp ht
        exact ⟨c, Or.inr hc1, hc2⟩
    · rintro ⟨c, hc1 | hc1, hc2⟩
      · have ht := sum_map_le_sum_map f g hfg t
        subst hc1; omega
      · have ht := ih.mpr ⟨c, hc1, hc2⟩
        have := hfg a; omega

lemma length_lt_byteLength_iff (s : List Nat) :
    s.length < byteLength s ↔ ∃ c ∈ s, 0x80 ≤ c := by
  have hlen : s.length = (s.map (fun _ => 1)).sum := by
    induction s with
    | nil => rfl
    | cons a t ih =>
      simp only [List.map_cons, List.sum_cons, List.length_cons]
      omega
  rw [byteLength, hlen,
    sum_map_lt_sum_map_iff (fun _ => 1) utf8Len (fun c => utf8Len_pos c) s]
  constructor
  · rintro ⟨c, h1, h2⟩; exact ⟨c, h1, (one_lt_utf8Len_iff c).mp h2⟩
  · rintro ⟨c, h1, h2⟩; exact ⟨c, h1, (one_lt_utf8Len_iff c).mpr h2⟩

lemma utf16Length_lt_byteLength_iff (s : List Nat) :
    utf16Length s < byteLength s ↔ ∃ c ∈ s, 0x80 ≤ c := by
  rw [byteLength, utf16Length,
    sum_map_lt_sum_map_iff utf16Len utf8Len (fun c => utf16Len_le_utf8Len c) s]
  constructor
  · rintro ⟨c, h1, h2⟩; exact ⟨c, h1, (utf16Len_lt_utf8Len_iff c).mp h2⟩
  · rintro ⟨c, h1, h2⟩; exact ⟨c, h1, (utf16Len_lt_utf8Len_iff c).mpr h2⟩

lemma length_le_utf16Length (s : List Nat) : s.length ≤ utf16Length s := by
  induction s with
  | nil => simp [utf16Length]
  | cons a t ih =>
    have h1 : 1 ≤ utf16Len a := by unfold utf16Len; split_ifs <;> omega
    simp only [utf16Length, List.map_cons, List.sum_cons, List.length_cons] at *
    omega

lemma utf16Length_eq_one_elim (s : List Nat) (hne : s ≠ [])
    (h : utf16Length s = 1) : ∃ c, s = [c] ∧ c < 0x10000 := by
  match s with
  | [] => exact absurd rfl hne
  | a :: t =>
    have h1 : 1 ≤ utf16Len a := by unfold utf16Len; split_ifs <;> omega
    have hlt := length_le_utf16Length t
    simp only [utf16Length, List.map_cons, List.sum_cons] at h
    have ht : t.length = 0 := by
      simp only [utf16Length] at hlt; omega
    have ht2 : t = [] := List.length_eq_zero.mp ht
    subst ht2
    refine ⟨a, rfl, ?_⟩
    simp only [List.map_nil, List.sum_nil] at h
    exact (utf16Len_eq_one_iff a).mp (by omega)

/-- The `CompositionState` record of `composition-buffer.ts`: the buffer is
kept as the list of code points of the string (JavaScript spread order), the
armed flush timer as an optional deadline. -/
structure CompositionState where
  isComposing : Bool
  buffer : List Nat
  lastInputTime : Nat
  flushTimer : Option Nat
deriving DecidableEq

/-- What the buffer hands to its two sinks: `flushed t` models a call of the
`onFlush` callback with text `t`, `regular t` a call of `onRegularInput`. -/
inductive BufOutput where
  | flushed (text : List Nat)
  | regular (text : List Nat)
deriving DecidableEq

/-- The initial `CompositionState` of a fresh `CompositionBuffer`. -/
def initState : CompositionState :=
  { isComposing := false, buffer := [], lastInputTime := 0, flushTimer := none }

/-- `CompositionBuffer.flush`: cancel the timer, emit the buffer through
`onFlush` when it is non-empty and empty it, clear the composing flag. -/
def flushOp (s : CompositionState) : CompositionState × List BufOutput :=
  ({ isComposing := false, buffer := [], lastInputTime := s.lastInputTime,
     flushTimer := none },
   if s.buffer = [] then [] else [BufOutput.flushed s.buffer])

/-- `CompositionBuffer.handleIMEInput`: append the input, stamp the time,
set the composing flag, replace any armed timer by a fresh one. -/
def handleIMEInput (input : List Nat) (now timeout : Nat)
    (s : CompositionState) : CompositionState × List BufOutput :=
  ({ isComposing := true, buffer := s.buffer ++ input, lastInputTime := now,
     flushTimer := some (now + timeout) }, [])

/-- `CompositionBuffer.handleRegularInput`: flush first when composing with a
non-empty buffer, then pass the input through `onRegularInput`. -/
def handleRegularInput (input : List Nat) (s : CompositionState) :
    CompositionState × List BufOutput :=
  if s.isComposing = true ∧ s.buffer ≠ [] then
    ((flushOp s).1, (flushOp s).2 ++ [BufOutput.regular input])
  else (s, [BufOutput.regular input])

/-- `CompositionBuffer.process`: dispatch on the pre-computed classification. -/
def process (input : List Nat) (isIME : Bool) (now timeout : Nat)
    (s : CompositionState) : CompositionState × List BufOutput :=
  if isIME then handleIMEInput input now timeout s else handleRegularInput input s

/-- `CompositionBuffer.clear`: discard the buffer without emitting, disarm
the timer, clear the composing flag. -/
def clearOp (s : CompositionState) : CompositionState × List BufOutput :=
  ({ isComposing := false, buffer := [], lastInputTime := s.lastInputTime,
     flushTimer := none }, [])

/-- `CompositionBuffer.backspace`: when the buffer is non-empty remove its
last code point (spread, pop, join) and report true, else report false.
Only the `buffer` field is touched. -/
def backspaceOp (s : CompositionState) : Bool × CompositionState :=
  if s.buffer.length > 0 then (true, { s with buffer := s.buffer.dropLast })
  else (false, s)

/-- The armed timer firing: the scheduled action is `flush()`; modelled only
when a timer is armed. -/
def timerFire (s : CompositionState) : CompositionState × List BufOutput :=
  if s.flushTimer.isSome then flushOp s else (s, [])

/-- Externally observable operations of the `CompositionBuffer`, including
the composition timer firing. -/
inductive BufEvent where
  | procIME (text : List Nat) (now : Nat)
  | procReg (text : List Nat)
  | doFlush
  | doClear
  | doBackspace
  | timerFires
deriving DecidableEq

/-- One operation of the buffer, returning the next state and the sink calls
it made, in order. -/
def stepBuf (timeout : Nat) (e : BufEvent) (s : CompositionState) :
    CompositionState × List BufOutput :=
  match e with
  | .procIME t now => process t true now timeout s
  | .procReg t => process t false 0 timeout s
  | .doFlush => flushOp s
  | .doClear => clearOp s
  | .doBackspace => ((backspaceOp s).2, [])
  | .timerFires => timerFire s

/-- Run a sequence of buffer operations from a given state, concatenating
all sink calls in order. -/
def runBufFrom (timeout : Nat) (s : CompositionState) :
    List BufEvent → CompositionState × List BufOutput
  | [] => (s, [])
  | e :: es =>
    ((runBufFrom timeout (stepBuf timeout e s).1 es).1,
     (stepBuf timeout e s).2 ++ (runBufFrom timeout (stepBuf timeout e s).1 es).2)

/-- Run a sequence of buffer operations from the initial state. -/
def runBuf (timeout : Nat) (es : List BufEvent) :
    CompositionState × List BufOutput :=
  runBufFrom timeout initState es

/-- A UTF-8 continuation byte. -/
def isContByte (b : Nat) : Bool := decide (0x80 ≤ b) && decide (b ≤ 0xBF)

/-- Model of `Buffer.prototype.toString('utf8')`: decode well-formed UTF-8
sequences to code points and replace each malformed byte run by U+FFFD, the
way the Node decoder does. -/
def utf8Decode : List Nat → List Nat
  | [] => []
  | b1 :: t1 =>
    if b1 < 0x80 then b1 :: utf8Decode t1
    else if 0xC2 ≤ b1 ∧ b1 ≤ 0xDF then
      match t1 with
      | b2 :: t2 =>
        if isContByte b2 then
          ((b1 - 0xC0) * 0x40 + (b2 - 0x80)) :: utf8Decode t2
        else 0xFFFD :: utf8Decode (b2 :: t2)
      | [] => [0xFFFD]
    else if 0xE0 ≤ b1 ∧ b1 ≤ 0xEF then
      match t1 with
      | b2 :: t2 =>
        if (b1 = 0xE0 → 0xA0 ≤ b2) ∧ (b1 = 0xED → b2 ≤ 0x9F) ∧ isContByte b2 = true then
          match t2 with
          | b3 :: t3 =>
            if isContByte b3 then
              ((b1 - 0xE0) * 0x1000 + (b2 - 0x80) * 0x40 + (b3 - 0x80)) :: utf8Decode t3
            else 0xFFFD :: utf8Decode (b3 :: t3)
          | [] => [0xFFFD]
        else 0xFFFD :: utf8Decode (b2 :: t2)
      | [] => [0xFFFD]
    else if 0xF0 ≤ b1 ∧ b1 ≤ 0xF4 then
      match t1 with
      | b2 :: t2 =>
        if (b1 = 0xF0 → 0x90 ≤ b2) ∧ (b1 = 0xF4 → b2 ≤ 0x8F) ∧ isContByte b2 = true then
          match t2 with
          | b3 :: t3 =>
            if isContByte b3 then
              match t3 with
              | b4 :: t4 =>
                if isContByte b4 then
                  ((b1 - 0xF0) * 0x40000 + (b2 - 0x80) * 0x1000 +
                    (b3 - 0x80) * 0x40 + (b4 - 0x80)) :: utf8Decode t4
                else 0xFFFD :: utf8Decode (b4 :: t4)
              | [] => [0xFFFD]
            else 0xFFFD :: utf8Decode (b3 :: t3)
          | [] => [0xFFFD]
        else 0xFFFD :: utf8Decode (b2 :: t2)
      | [] => [0xFFFD]
    else 0xFFFD :: utf8Decode t1

/-- Result of `TerminalIMEProxy.handleSpecialKeys`: whether the chunk was
consumed, the buffer state afterwards, and the texts passed to `sendToApp`,
in order. -/
structure RouterResult where
  consumed : Bool
  state : CompositionState
  sends : List (List Nat)
deriving DecidableEq

/-- The texts a list of buffer sink calls carries, in order; in the proxy
both sinks forward to `sendToApp`. -/
def bufOutputText : BufOutput → List Nat
  | .flushed t => t
  | .regular t => t

/-- `TerminalIMEProxy.handleSpecialKeys`, checked in source order: interrupt
0x03, end-of-file 0x04, backspace 0x7F or 0x08, enter 0x0D or 0x0A, then any
chunk whose first byte is 0x1B.  The flush-then-forward branches pass the
flushed text (through the `onFlush` sink wired to `sendToApp`) before the
decoded chunk. -/
def handleSpecialKeys (data : List Nat) (s : CompositionState) : RouterResult :=
  if data.length = 1 ∧ data.headD 0 = 0x03 then
    { consumed := true, state := (flushOp s).1,
      sends := (flushOp s).2.map bufOutputText ++ [utf8Decode data] }
  else if data.length = 1 ∧ data.headD 0 = 0x04 then
    { consumed := true, state := (flushOp s).1,
      sends := (flushOp s).2.map bufOutputText ++ [utf8Decode data] }
  else if data.length = 1 ∧ (data.headD 0 = 0x7F ∨ data.headD 0 = 0x08) then
    { consumed := true, state := (backspaceOp s).2,
      sends := if (backspaceOp s).1 then [] else [utf8Decode data] }
  else if data.length = 1 ∧ (data.headD 0 = 0x0D ∨ data.headD 0 = 0x0A) then
    { consumed := true, state := (flushOp s).1,
      sends := (flushOp s).2.map bufOutputText ++ [utf8Decode data] }
  else if data.headD 0 = 0x1B then
    { consumed := true, state := (flushOp s).1,
      sends := (flushOp s).2.map bufOutputText ++ [utf8Decode data] }
  else { consumed := false, state := s, sends := [] }

/-- The mutable state of `TerminalIMEProxy` that the embedding tracks: the
destroyed flag and the owned composition buffer. -/
structure ProxyState where
  isDestroyed : Bool
  buf : CompositionState
deriving DecidableEq

/-- Externally visible side effects of the proxy handlers. -/
inductive Effect where
  | writeToPty (text : List Nat)
  | writeStdout (data : List Nat)
  | restoreStdin
  | killPty
deriving DecidableEq

/-- `TerminalIMEProxy.sendToApp`: write to the child PTY unless destroyed. -/
def sendToApp (text : List Nat) (p : ProxyState) : ProxyState × List Effect :=
  if p.isDestroyed = true then (p, []) else (p, [Effect.writeToPty text])

/-- The `pty.onData` handler of `setupOutputHandling`: copy child output to
the terminal stdout unless destroyed. -/
def onChildData (data : List Nat) (p : ProxyState) : ProxyState × List Effect :=
  if p.isDestroyed = true then (p, []) else (p, [Effect.writeStdout data])

/-- The `process.stdin.on('data')` handler of `setupInputHandling`: drop the
chunk when destroyed, otherwise route special keys, classify, and feed the
composition buffer; every text either sink produces goes to `sendToApp`. -/
def onStdinData (data : List Nat) (now timeout : Nat) (p : ProxyState) :
    ProxyState × List Effect :=
  if p.isDestroyed = true then (p, [])
  else
    if (handleSpecialKeys data p.buf).consumed then
      ({ p with buf := (handleSpecialKeys data p.buf).state },
       (handleSpecialKeys data p.buf).sends.map Effect.writeToPty)
    else
      ({ p with buf := (process (utf8Decode data) (isIMEInput (utf8Decode data))
                          now timeout p.buf).1 },
       (process (utf8Decode data) (isIMEInput (utf8Decode data))
          now timeout p.buf).2.map (fun o => Effect.writeToPty (bufOutputText o)))

/-- `CompositionBuffer.destroy`: disarm the timer, touch nothing else. -/
def bufferDestroy (s : CompositionState) : CompositionState :=
  { s with flushTimer := none }

/-- `TerminalIMEProxy.destroy`: return immediately when already destroyed;
otherwise set the flag, destroy the buffer, restore stdin, kill the PTY. -/
def destroyProxy (p : ProxyState) : ProxyState × List Effect :=
  if p.isDestroyed = true then (p, [])
  else ({ isDestroyed := true, buf := bufferDestroy p.buf },
        [Effect.restoreStdin, Effect.killPty])

/-- From `TerminalIMEProxy.setupOutputHandling`: the `onExit` handler calls
`process.exit(exitCode)` with the child's exit code. -/
def onChildExitCode (exitCode : Nat) : Nat := exitCode

/-- From `TerminalIMEProxy.setupSignalHandling`: the SIGTERM handler calls
`destroy()` and then `process.exit(0)`. -/
def sigtermExitCode : Nat := 0

/-- From `main`: when no command is given the process exits with code 1. -/
def noCommandExitCode : Nat := 1

/-- From `main` and `TerminalIMEProxy.spawnApp`: a spawn (launch) failure is
caught nowhere, so it propagates as an uncaught exception and the host
runtime terminates the process with its fixed uncaught-exception exit
code 1. -/
def launchErrorExitCode : Nat := 1

/-- A decimal digit character. -/
def isDigitChar (c : Char) : Bool := decide (48 ≤ c.toNat) && decide (c.toNat ≤ 57)

/-- Numeric value of a run of decimal digit characters. -/
def digitsVal (l : List Char) : Nat :=
  l.foldl (fun a c => a * 10 + (c.toNat - 48)) 0

/-- Model of the JavaScript `parseInt(s, 10)`: skip leading whitespace, read
an optional sign, then the longest run of decimal digits; `none` models NaN
when no digit follows. -/
def parseIntJS (s : List Char) : Option Int :=
  match s.dropWhile (fun c => c = ' ' ∨ c = '\t' ∨ c = '\n' ∨ c = '\r') with
  | '-' :: rest =>
    if rest.takeWhile isDigitChar = [] then none
    else some (-(digitsVal (rest.takeWhile isDigitChar) : Int))
  | '+' :: rest =>
    if rest.takeWhile isDigitChar = [] then none
    else some (digitsVal (rest.takeWhile isDigitChar))
  | t =>
    if t.takeWhile isDigitChar = [] then none
    else some (digitsVal (t.takeWhile isDigitChar))

/-- The JavaScript `a || b` on a parsed number: NaN and 0 are falsy and give
the default. -/
def jsOrDefault (v : Option Int) (d : Int) : Int :=
  match v with
  | none => d
  | some x => if x = 0 then d else x

/-- From `main`: `timeout = parseInt(args[++i], 10) || 50` for the
`--timeout` / `-t` option value. -/
def effTimeout (s : List Char) : Int := jsOrDefault (parseIntJS s) 50

/-- UTF-8 encoding of one code point, as a byte list. -/
def utf8EncodeCp (c : Nat) : List Nat :=
  if c < 0x80 then [c]
  else if c < 0x800 then [0xC0 + c / 0x40, 0x80 + c % 0x40]
  else if c < 0x10000 then
    [0xE0 + c / 0x1000, 0x80 + (c / 0x40) % 0x40, 0x80 + c % 0x40]
  else
    [0xF0 + c / 0x40000, 0x80 + (c / 0x1000) % 0x40,
     0x80 + (c / 0x40) % 0x40, 0x80 + c % 0x40]

/-- UTF-8 encoding of a code-point string, as a byte list. -/
def utf8Encode (s : List Nat) : List Nat := (s.map utf8EncodeCp).flatten

lemma stepBuf_preserves_inv (timeout : Nat) (e : BufEvent) (s : CompositionState)
    (h : s.buffer ≠ [] → s.isComposing = true) :
    (stepBuf timeout e s).1.buffer ≠ [] → (stepBuf timeout e s).1.isComposing = true := by
  cases e with
  | procIME t now => simp [stepBuf, process, handleIMEInput]
  | procReg t =>
    by_cases hc : s.isComposing = true ∧ s.buffer ≠ []
    · simp [stepBuf, process, handleRegularInput, hc, flushOp]
    · simp only [stepBuf, process, Bool.false_eq_true, if_false, handleRegularInput,
        if_neg hc]
      exact h
  | doFlush => simp [stepBuf, flushOp]
  | doClear => simp [stepBuf, clearOp]
  | doBackspace =>
    by_cases hb : s.buffer.length > 0
    · simp only [stepBuf, backspaceOp, if_pos hb]
      intro _
      exact h (List.length_pos.mp hb)
    · simp only [stepBuf, backspaceOp, if_neg hb]
      exact h
  | timerFires =>
    by_cases ht : s.flushTimer.isSome = true
    · simp [stepBuf, timerFire, ht, flushOp]
    · simp only [stepBuf, timerFire, if_neg ht]
      exact h

lemma runBufFrom_preserves_inv (timeout : Nat) (es : List BufEvent) :
    ∀ s : CompositionState, (s.buffer ≠ [] → s.isComposing = true) →
      ((runBufFrom timeout s es).1.buffer ≠ [] →
        (runBufFrom timeout s es).1.isComposing = true) := by
  induction es with
  | nil => intro s h; simpa [runBufFrom] using h
  | cons e es ih =>
    intro s h
    simp only [runBufFrom]
    exact ih _ (stepBuf_preserves_inv timeout e s h)

/-- Claim C1 (amended): after every externally observable buffer operation
settles, a non-empty buffer implies that the composing flag is true.  The
converse direction of the claimed equivalence fails: after `backspace()`
removes the last remaining code point the flag stays true (see the
counterexample). -/
theorem c1_composing_iff_nonempty_amended (timeout : Nat) (es : List BufEvent)
    (h : (runBuf timeout es).1.buffer ≠ []) :
    (runBuf timeout es).1.isComposing = true :=
  runBufFrom_preserves_inv timeout es initState (fun hne => absurd rfl hne) h

/-- Claim C1 witness: a run ending with a non-empty buffer has the composing
flag set. -/
theorem c1_composing_iff_nonempty_amended_witness :
    (runBuf 50 [BufEvent.procIME [0x3042] 0]).1.buffer ≠ [] ∧
    (runBuf 50 [BufEvent.procIME [0x3042] 0]).1.isComposing = true :=
  ⟨by decide,
   c1_composing_iff_nonempty_amended 50 [BufEvent.procIME [0x3042] 0] (by decide)⟩

/-- Claim C1 counterexample: process one IME code point, then backspace;
the buffer is empty yet the composing flag is still true, so the claimed
equivalence (and in particular that composing is false after `backspace()`
removes the last remaining code point) is false on the code. -/
theorem c1_counterexample :
    (runBuf 50 [BufEvent.procIME [0x3042] 0, BufEvent.doBackspace]).1.buffer = [] ∧
    (runBuf 50 [BufEvent.procIME [0x3042] 0, BufEvent.doBackspace]).1.isComposing = true := by
  decide

/-- Claim C2 counterexample: in the reachable state where composing is true
and the buffer is empty (one IME code point, then backspace), a
`process(text, false)` call does not invoke `flush()`: the timer stays
armed, the composing flag stays true, and no flushed-text sink call is made
before the regular emission. -/
theorem c2_counterexample :
    (runBuf 50 [BufEvent.procIME [0x3042] 0, BufEvent.doBackspace]).1.isComposing = true ∧
    (runBuf 50 [BufEvent.procIME [0x3042] 0, BufEvent.doBackspace,
      BufEvent.procReg [98]]).1.isComposing = true ∧
    (runBuf 50 [BufEvent.procIME [0x3042] 0, BufEvent.doBackspace,
      BufEvent.procReg [98]]).1.flushTimer = some 50 ∧
    (runBuf 50 [BufEvent.procIME [0x3042] 0, BufEvent.doBackspace,
      BufEvent.procReg [98]]).2 = [BufOutput.regular [98]] := by
  decide

/-- Claim C2 (amended): on `process(text, false)`, when the composing flag is
true AND the buffer is non-empty, `flush()` runs first (the timer is
disarmed, composing cleared, the buffered text emitted) and then `text` goes
to the regular-input sink; otherwise the state is untouched and only the
regular emission happens.  In every case the regular-input sink receives
text exactly once. -/
theorem c2_regular_input_flush_amended (input : List Nat) (s : CompositionState) :
    (s.isComposing = true → s.buffer ≠ [] →
      handleRegularInput input s =
        ({ isComposing := false, buffer := [], lastInputTime := s.lastInputTime,
           flushTimer := none },
         [BufOutput.flushed s.buffer, BufOutput.regular input])) ∧
    (¬(s.isComposing = true ∧ s.buffer ≠ []) →
      handleRegularInput input s = (s, [BufOutput.regular input])) ∧
    (handleRegularInput input s).2.countP
      (fun o => match o with | BufOutput.regular _ => true | _ => false) = 1 := by
  refine ⟨?_, ?_, ?_⟩
  · intro h1 h2
    simp [handleRegularInput, h1, h2, flushOp]
  · intro h
    simp only [handleRegularInput, if_neg h]
  · by_cases hc : s.isComposing = true ∧ s.buffer ≠ []
    · simp [handleRegularInput, hc, flushOp, List.countP_cons, List.countP_nil]
    · simp [handleRegularInput, hc, List.countP_cons, List.countP_nil]

/-- Claim C2 witness: from a composing state with buffered text, a regular
input flushes the buffer first and then emits the input. -/
theorem c2_regular_input_flush_amended_witness :
    handleRegularInput [98]
      { isComposing := true, buffer := [0x3042], lastInputTime := 0,
        flushTimer := some 50 } =
      ({ isComposing := false, buffer := [], lastInputTime := 0,
         flushTimer := none },
       [BufOutput.flushed [0x3042], BufOutput.regular [98]]) :=
  (c2_regular_input_flush_amended [98]
    { isComposing := true, buffer := [0x3042], lastInputTime := 0,
      flushTimer := some 50 }).1 rfl (by decide)

/-- Claim C3: `backspace()` returns false and leaves the state unchanged on
an empty buffer; on a non-empty buffer it returns true and removes exactly
the last code point, so the code-point count drops by one and the UTF-8
encoding of the new buffer is the old encoding minus the whole trailing
code-point encoding (never a partial code point). -/
theorem c3_backspace (s : CompositionState) :
    (s.buffer = [] → backspaceOp s = (false, s)) ∧
    (s.buffer ≠ [] →
      (backspaceOp s).1 = true ∧
      (backspaceOp s).2.buffer.length + 1 = s.buffer.length ∧
      ∃ c, s.buffer = (backspaceOp s).2.buffer ++ [c] ∧
        utf8Encode s.buffer = utf8Encode (backspaceOp s).2.buffer ++ utf8EncodeCp c) := by
  constructor
  · intro h; simp [backspaceOp, h]
  · intro h
    have hl : s.buffer.length > 0 := List.length_pos.mpr h
    refine ⟨by simp [backspaceOp, hl], ?_, ?_⟩
    · simp only [backspaceOp, if_pos hl, List.length_dropLast]
      omega
    · refine ⟨s.buffer.getLast h, ?_, ?_⟩
      · simp only [backspaceOp, if_pos hl]
        exact (List.dropLast_append_getLast h).symm
      · simp only [backspaceOp, if_pos hl]
        conv_lhs => rw [← List.dropLast_append_getLast h]
        simp [utf8Encode, List.map_append, List.flatten_append]

/-- Claim C3 witness: backspace on the empty buffer reports false and on a
one-code-point buffer reports true. -/
theorem c3_backspace_witness :
    backspaceOp initState = (false, initState) ∧
    (backspaceOp
      { isComposing := true, buffer := [0x1EA1], lastInputTime := 3,
        flushTimer := some 53 }).1 = true :=
  ⟨(c3_backspace initState).1 rfl,
   ((c3_backspace
      { isComposing := true, buffer := [0x1EA1], lastInputTime := 3,
        flushTimer := some 53 }).2 (by decide)).1⟩

/-- Claim C4: every non-empty string whose UTF-8 byte length exceeds its
code-point count (it contains a code point outside 7-bit ASCII) is
classified as IME input, and the empty string and any single ASCII
character are classified as regular. -/
theorem c4_classifier (s : List Nat) (c : Nat) :
    (s ≠ [] → s.length < byteLength s → isIMEInput s = true) ∧
    isIMEInput [] = false ∧
    (c < 0x80 → isIMEInput [c] = false) := by
  refine ⟨?_, by decide, ?_⟩
  · intro hne hlt
    obtain ⟨c0, hc0mem, hc0⟩ := (length_lt_byteLength_iff s).mp hlt
    have hguard : ¬(s = [] ∨ (utf16Length s = 1 ∧ charCodeAt0 s < 128)) := by
      rintro (h | ⟨h1, h2⟩)
      · exact hne h
      · obtain ⟨a, ha, ha2⟩ := utf16Length_eq_one_elim s hne h1
        subst ha
        simp only [List.mem_singleton] at hc0mem
        subst hc0mem
        simp only [charCodeAt0, if_pos ha2] at h2
        omega
    have hmb : isMultiByte s = true := by
      rw [isMultiByte, decide_eq_true_iff]
      exact (utf16Length_lt_byteLength_iff s).mpr ⟨c0, hc0mem, hc0⟩
    simp only [isIMEInput, if_neg hguard, hmb, if_true]
  · intro h
    have h16 : utf16Length [c] = 1 := by
      simp [utf16Length, utf16Len, show c < 0x10000 by omega]
    have hcc : charCodeAt0 [c] = c := by
      simp [charCodeAt0, show c < 0x10000 by omega]
    simp only [isIMEInput]
    rw [if_pos (Or.inr ⟨h16, by rw [hcc]; exact h⟩)]

/-- Claim C4 witness: the non-ASCII single code point U+00E0 (two UTF-8
bytes, one code point) is classified as IME, and the single ASCII character
`a` is classified as regular. -/
theorem c4_classifier_witness :
    ([0xE0] : List Nat) ≠ [] ∧ [0xE0].length < byteLength [0xE0] ∧
    isIMEInput [0xE0] = true ∧ isIMEInput [97] = false :=
  ⟨by decide, by decide,
   (c4_classifier [0xE0] 97).1 (by decide) (by decide),
   (c4_classifier [0xE0] 97).2.2 (by decide)⟩

/-- Claim C5: for a single-byte chunk 0x7F or 0x08 the router consumes the
chunk, applies `buffer.backspace()`, and forwards the byte to the child
exactly when the buffer was empty (backspace returned false); when the
buffer absorbed the backspace nothing is sent. -/
theorem c5_router_backspace (b : Nat) (s : CompositionState)
    (hb : b = 0x7F ∨ b = 0x08) :
    handleSpecialKeys [b] s =
      { consumed := true, state := (backspaceOp s).2,
        sends := if s.buffer = [] then [[b]] else [] } ∧
    ((backspaceOp s).1 = true ↔ s.buffer ≠ []) := by
  constructor
  · rcases hb with rfl | rfl <;>
    · by_cases h : s.buffer = []
      · simp [handleSpecialKeys, backspaceOp, utf8Decode, h]
      · have hl : s.buffer.length > 0 := List.length_pos.mpr h
        simp [handleSpecialKeys, backspaceOp, utf8Decode, h, hl]
  · constructor
    · intro h1 he
      simp [backspaceOp, he] at h1
    · intro h
      simp [backspaceOp, List.length_pos.mpr h]

/-- Claim C5 witness: with an empty buffer, a 0x7F chunk is consumed, the
buffer reports it did not absorb the backspace, and the byte goes to the
child. -/
theorem c5_router_backspace_witness :
    handleSpecialKeys [0x7F] initState =
      { consumed := true, state := (backspaceOp initState).2,
        sends := if initState.buffer = [] then [[0x7F]] else [] } :=
  (c5_router_backspace 0x7F initState (Or.inl rfl)).1

/-- Claim C6 counterexample: the SIGTERM handler exits with code 0, so the
claimed non-zero exit code on a fatal signal is false on the code. -/
theorem c6_counterexample : ¬sigtermExitCode ≠ 0 := by decide

/-- Claim C6 (amended): the proxy exits with the child's exit code on normal
child termination and with 1 on argument and launch errors (missing command,
uncaught spawn failure); on SIGTERM it tears down and exits with code 0 (not
a signal-specific non-zero code). -/
theorem c6_exit_codes_amended (c : Nat) :
    onChildExitCode c = c ∧ noCommandExitCode = 1 ∧ launchErrorExitCode = 1 ∧
    sigtermExitCode = 0 :=
  ⟨rfl, rfl, rfl, rfl⟩

/-- Claim C7 counterexample: the string `0` parses as the valid integer 0,
yet the effective timeout is 50, not the supplied value, so a valid integer
value does not always override the default. -/
theorem c7_counterexample :
    parseIntJS ['0'] = some 0 ∧ effTimeout ['0'] = 50 ∧ effTimeout ['0'] ≠ 0 := by
  decide

/-- Claim C7 (amended): an invalid `--timeout` value falls back to 50; a
valid non-zero integer value overrides the default; the valid integer 0 also
falls back to 50 because the code uses a truthiness fallback. -/
theorem c7_timeout_amended (s : List Char) (v : Int) :
    (parseIntJS s = none → effTimeout s = 50) ∧
    (parseIntJS s = some v → v ≠ 0 → effTimeout s = v) ∧
    (parseIntJS s = some 0 → effTimeout s = 50) := by
  refine ⟨?_, ?_, ?_⟩
  · intro h
    simp [effTimeout, jsOrDefault, h]
  · intro h hv
    simp [effTimeout, jsOrDefault, h, hv]
  · intro h
    simp [effTimeout, jsOrDefault, h]

/-- Claim C7 witness: a non-numeric value gives 50, the value 75 is used as
supplied, and the value 0 gives 50. -/
theorem c7_timeout_amended_witness :
    effTimeout ['a'] = 50 ∧ effTimeout ['7', '5'] = 75 ∧ effTimeout ['0'] = 50 :=
  ⟨(c7_timeout_amended ['a'] 1).1 (by decide),
   (c7_timeout_amended ['7', '5'] 75).2.1 (by decide) (by decide),
   (c7_timeout_amended ['0'] 0).2.2 (by decide)⟩

lemma flushOp_out_nonempty (s : CompositionState) (t : List Nat)
    (h : BufOutput.flushed t ∈ (flushOp s).2) : t ≠ [] := by
  by_cases hb : s.buffer = []
  · simp [flushOp, hb] at h
  · simp only [flushOp, if_neg hb, List.mem_singleton, BufOutput.flushed.injEq] at h
    subst h
    exact hb

lemma stepBuf_flush_nonempty (timeout : Nat) (e : BufEvent) (s : CompositionState)
    (t : List Nat) (h : BufOutput.flushed t ∈ (stepBuf timeout e s).2) : t ≠ [] := by
  cases e with
  | procIME t2 now => simp [stepBuf, process, handleIMEInput] at h
  | procReg t2 =>
    by_cases hc : s.isComposing = true ∧ s.buffer ≠ []
    · simp only [stepBuf, process, Bool.false_eq_true, if_false,
        handleRegularInput, if_pos hc, List.mem_append] at h
      rcases h with h | h
      · exact flushOp_out_nonempty s t h
      · simp at h
    · simp only [stepBuf, process, Bool.false_eq_true, if_false,
        handleRegularInput, if_neg hc] at h
      simp at h
  | doFlush => exact flushOp_out_nonempty s t (by simpa [stepBuf] using h)
  | doClear => simp [stepBuf, clearOp] at h
  | doBackspace => simp [stepBuf] at h
  | timerFires =>
    by_cases ht : s.flushTimer.isSome = true
    · exact flushOp_out_nonempty s t (by simpa [stepBuf, timerFire, ht] using h)
    · simp [stepBuf, timerFire, ht] at h

lemma runBufFrom_flush_nonempty (timeout : Nat) (es : List BufEvent) :
    ∀ (s : CompositionState) (t : List Nat),
      BufOutput.flushed t ∈ (runBufFrom timeout s es).2 → t ≠ [] := by
  induction es with
  | nil => intro s t h; simp [runBufFrom] at h
  | cons e es ih =>
    intro s t h
    simp only [runBufFrom, List.mem_append] at h
    rcases h with h | h
    · exact stepBuf_flush_nonempty timeout e s t h
    · exact ih _ t h

/-- Claim C8: over every sequence of buffer operations (explicit flushes,
timer firings, regular input during composition included), each call of the
flushed-text sink carries a non-empty string. -/
theorem c8_onflush_nonempty (timeout : Nat) (es : List BufEvent) (t : List Nat)
    (h : BufOutput.flushed t ∈ (runBuf timeout es).2) : t ≠ [] :=
  runBufFrom_flush_nonempty timeout es initState t h

/-- Claim C8 witness: an IME code point followed by a flush produces exactly
one flushed-sink call and its text is non-empty. -/
theorem c8_onflush_nonempty_witness :
    BufOutput.flushed [0x3042] ∈
      (runBuf 50 [BufEvent.procIME [0x3042] 0, BufEvent.doFlush]).2 ∧
    ([0x3042] : List Nat) ≠ [] :=
  ⟨by decide,
   c8_onflush_nonempty 50 [BufEvent.procIME [0x3042] 0, BufEvent.doFlush]
     [0x3042] (by decide)⟩

/-- Claim C9: `backspace()` mutates only the buffer field: the composing
flag, the last-input timestamp and the armed flush timer are unchanged, for
every state, including when the call empties the buffer. -/
theorem c9_backspace_frame (s : CompositionState) :
    (backspaceOp s).2.isComposing = s.isComposing ∧
    (backspaceOp s).2.lastInputTime = s.lastInputTime ∧
    (backspaceOp s).2.flushTimer = s.flushTimer := by
  unfold backspaceOp
  split <;> simp

/-- Claim C10: once the proxy is destroyed, a stdin chunk is dropped without
touching the buffer or the PTY, a buffer emission routed through `sendToApp`
writes nothing, child output is not copied to stdout, and a second
`destroy()` changes nothing and has no effects. -/
theorem c10_destroyed (p : ProxyState) (data text : List Nat)
    (now timeout : Nat) (h : p.isDestroyed = true) :
    onStdinData data now timeout p = (p, []) ∧
    sendToApp text p = (p, []) ∧
    onChildData data p = (p, []) ∧
    destroyProxy p = (p, []) := by
  refine ⟨?_, ?_, ?_, ?_⟩ <;>
    simp [onStdinData, sendToApp, onChildData, destroyProxy, h]

/-- Claim C10 witness: on a destroyed proxy a concrete stdin chunk and a
second destroy are both no-ops with no effects. -/
theorem c10_destroyed_witness :
    onStdinData [97] 0 50 { isDestroyed := true, buf := initState } =
      ({ isDestroyed := true, buf := initState }, []) ∧
    destroyProxy { isDestroyed := true, buf := initState } =
      ({ isDestroyed := true, buf := initState }, []) := by
  have h := c10_destroyed { isDestroyed := true, buf := initState } [97] [98] 0 50 rfl
  exact ⟨h.1, h.2.2.2⟩
